import Mathlib

/-
Verification development for the stadium seat-view application.

The JavaScript sources are shallowly embedded below.  Floating-point
numbers are modelled as exact rationals; the JavaScript value NaN is
modelled by the value none of the type JNum (Option Rat), and the
JavaScript arithmetic operators are modelled by NaN-propagating
operations on JNum.  Fields that a JavaScript object may lack (reads
give undefined) are modelled with Option.  Math.sqrt, Math.cos, Math.sin
and Math.PI are kept abstract as parameters, since their values are not
rational; every theorem quantifies over them or pins them by hypothesis.
-/

/-- A JavaScript number: none models NaN. -/
abbrev JNum := Option ℚ

/-- JavaScript addition (NaN-propagating). -/
def jadd : JNum → JNum → JNum
  | some a, some b => some (a + b)
  | _, _ => none

/-- JavaScript multiplication (NaN-propagating; the embedded code never
multiplies 0 with an infinity, so rational multiplication is faithful). -/
def jmul : JNum → JNum → JNum
  | some a, some b => some (a * b)
  | _, _ => none

/-- Math.abs. -/
def jabs : JNum → JNum := Option.map (fun q => |q|)

/-- Math.floor; the result is again a JavaScript number. -/
def jfloor : JNum → JNum := Option.map (fun q => (⌊q⌋ : ℚ))

/-- Math.pow with natural exponent, as used by Math.pow(x, 2). -/
def jpow (a : JNum) (n : ℕ) : JNum := a.map (fun q => q ^ n)

/-- Math.min (NaN-propagating). -/
def jmin : JNum → JNum → JNum
  | some a, some b => some (min a b)
  | _, _ => none

/-- Truncation toward zero, as used by the JavaScript % operator. -/
def jsTrunc (q : ℚ) : ℤ := if 0 ≤ q then ⌊q⌋ else ⌈q⌉

/-- The JavaScript remainder operator a % b: sign of the dividend,
NaN when either operand is NaN or the divisor is zero. -/
def jmod : JNum → JNum → JNum
  | some a, some b => if b = 0 then none else some (a - b * (jsTrunc (a / b) : ℚ))
  | _, _ => none

/-- The JavaScript comparison a < b (false whenever an operand is NaN). -/
def jlt : JNum → JNum → Bool
  | some a, some b => a < b
  | _, _ => false

/-- The JavaScript comparison a <= b (false whenever an operand is NaN). -/
def jle : JNum → JNum → Bool
  | some a, some b => a ≤ b
  | _, _ => false

/-- String rendering of a JavaScript number, only used to build seat id
strings (no claim depends on the exact digits of the non-integer case). -/
def jnumStr : JNum → String
  | none => "NaN"
  | some q => if q.den = 1 then toString q.num else toString q

/-! ## Character-level helpers for the coordinate parser

The parser in seatCoordinateParser.js works on JavaScript strings; we
embed it on List Char.  Whitespace is the ASCII part of the class
matched by the regular expression escape for whitespace and by trim. -/

/-- ASCII whitespace as matched by the JavaScript whitespace class. -/
def wsChar (c : Char) : Bool :=
  c = ' ' || c = '\t' || c = '\n' || c = '\r' || c = '\x0b' || c = '\x0c'

/-- String.prototype.trim. -/
def trimJs (cs : List Char) : List Char :=
  ((cs.dropWhile wsChar).reverse.dropWhile wsChar).reverse

/-- String.prototype.split with a one-character separator (JavaScript
semantics: the empty string splits to one empty field). -/
def splitOnChar (sep : Char) : List Char → List (List Char)
  | [] => [[]]
  | c :: cs =>
    if c = sep then [] :: splitOnChar sep cs
    else
      match splitOnChar sep cs with
      | [] => [[c]]
      | l :: ls => (c :: l) :: ls

/-- Remove an expected leading sequence, or fail. -/
def dropLeading : List Char → List Char → Option (List Char)
  | [], cs => some cs
  | _ :: _, [] => none
  | p :: ps, c :: cs => if p = c then dropLeading ps cs else none

/-- String.prototype.includes, i.e. substring search. -/
def containsSub (needle : List Char) : List Char → Bool
  | [] => (dropLeading needle []).isSome
  | c :: cs => (dropLeading needle (c :: cs)).isSome || containsSub needle cs

/-- The character class of the capture group of the vector pattern:
minus signs, digits, dots, whitespace and commas. -/
def vecClassChar (c : Char) : Bool :=
  c.isDigit || c = '-' || c = '.' || wsChar c || c = ','

/-- Attempt to match the vector pattern at the head of the list: the
literal opening tag, optional whitespace, an opening parenthesis, a
nonempty run of class characters (the capture group), then the closing
parenthesis and angle bracket.  Greedy matching of the run needs no
backtracking because the closing parenthesis is not a class character. -/
def tryMatchAt (cs : List Char) : Option (List Char) :=
  match dropLeading ("<Vector".data) cs with
  | none => none
  | some rest =>
    match (rest.dropWhile wsChar) with
    | '(' :: rest2 =>
      match rest2.takeWhile vecClassChar, rest2.dropWhile vecClassChar with
      | [], _ => none
      | grp, ')' :: '>' :: _ => some grp
      | _, _ => none
    | _ => none

/-- Leftmost match of the vector pattern anywhere in the line, returning
the capture group, as String.prototype.match does for this pattern. -/
def scanMatch : List Char → Option (List Char)
  | [] => none
  | c :: cs =>
    match tryMatchAt (c :: cs) with
    | some grp => some grp
    | none => scanMatch cs

/-- Value of a run of decimal digit characters. -/
def digitsVal (cs : List Char) : ℕ :=
  cs.foldl (fun a c => a * 10 + (c.toNat - 48)) 0

/-- parseFloat restricted to the character class of the capture group
(an optional minus sign, an integer digit run, an optional dot with a
fractional digit run; NaN when no digit is consumed; trailing
characters are ignored, as parseFloat parses the longest valid prefix). -/
def parseFloatJs (cs : List Char) : JNum :=
  let (neg, rest) :=
    match cs with
    | '-' :: r => (true, r)
    | r => (false, r)
  let intPart := rest.takeWhile Char.isDigit
  let rest2 := rest.dropWhile Char.isDigit
  let fracPart :=
    match rest2 with
    | '.' :: r => r.takeWhile Char.isDigit
    | _ => []
  if intPart = [] ∧ fracPart = [] then none
  else
    let mag : ℚ := (digitsVal intPart : ℚ) + (digitsVal fracPart : ℚ) / (10 ^ fracPart.length : ℕ)
    some (if neg then -mag else mag)

/-- A parsed coordinate record; components are JavaScript numbers, so
NaN components are representable. -/
structure Point3J where
  x : JNum
  y : JNum
  z : JNum
deriving DecidableEq, Repr

/-- Processing of a single line of the import text, embedded from the
body of the forEach callback of parseVectorCoordinates: trim, require a
nonempty line containing the opening tag, match the vector pattern,
split the capture group on commas, parseFloat each trimmed field, and
require exactly three fields. -/
def parseLine (rawLine : List Char) : Option Point3J :=
  let line := trimJs rawLine
  if line = [] then none
  else if ¬ containsSub ("<Vector".data) line then none
  else
    match scanMatch line with
    | none => none
    | some grp =>
      if grp = [] then none
      else
        match (splitOnChar ',' grp).map (fun part => parseFloatJs (trimJs part)) with
        | [a, b, c] => some ⟨a, b, c⟩
        | _ => none

/-- The body of the forEach callback at the accumulator level: push the
parsed coordinates of a line, or leave the accumulator unchanged. -/
def pushCoord (acc : List Point3J) (l : List Char) : List Point3J :=
  match parseLine l with
  | some p => acc ++ [p]
  | none => acc

/-- parseVectorCoordinates from seatCoordinateParser.js: split the text
into lines and push the coordinates of each successfully parsed line
onto the accumulator, in line order. -/
def parseVectorCoordinates (text : String) : List Point3J :=
  if text = "" then []
  else (splitOnChar '\n' text.data).foldl pushCoord []

theorem foldl_pushCoord_eq_filterMap (l : List (List Char)) (acc : List Point3J) :
    l.foldl pushCoord acc = acc ++ l.filterMap parseLine := by
  induction l generalizing acc with
  | nil => simp
  | cons hd tl ih =>
    simp only [List.foldl_cons, List.filterMap_cons, pushCoord]
    cases h : parseLine hd with
    | none => simp [ih]
    | some b => simp [ih]

theorem parseVectorCoordinates_eq_filterMap (text : String) :
    parseVectorCoordinates text = (splitOnChar '\n' text.data).filterMap parseLine := by
  by_cases h : text = ""
  · subst h
    have hpl : parseLine [] = none := by decide
    simp [parseVectorCoordinates, splitOnChar, hpl]
  · rw [parseVectorCoordinates, if_neg h, foldl_pushCoord_eq_filterMap, List.nil_append]

theorem parseLine_eq_of (raw grp f1 f2 f3 : List Char)
    (h0 : ¬ trimJs raw = [])
    (h1 : containsSub ("<Vector".data) (trimJs raw) = true)
    (h2 : scanMatch (trimJs raw) = some grp)
    (h3 : ¬ grp = [])
    (h4 : splitOnChar ',' grp = [f1, f2, f3]) :
    parseLine raw
      = some ⟨parseFloatJs (trimJs f1), parseFloatJs (trimJs f2), parseFloatJs (trimJs f3)⟩ := by
  simp only [parseLine, if_neg h0, h1, Bool.not_true, if_neg h3, h2, h4, List.map_cons,
    List.map_nil]
  simp

/-- C8: the coordinate parser returns exactly the numeric triples of the
lines on which the vector pattern matches with three comma-separated
fields, in input line order; non-matching lines and lines with an arity
other than three are skipped without error, a text with zero matching
records (the empty text included) yields the empty list, and the
three-line example with one malformed middle line yields exactly its two
coordinates in order. -/
theorem claim_C8 :
    (∀ text : String,
      parseVectorCoordinates text = (splitOnChar '\n' text.data).filterMap parseLine)
    ∧ (∀ text : String, (∀ l ∈ splitOnChar '\n' text.data, parseLine l = none) →
        parseVectorCoordinates text = [])
    ∧ parseVectorCoordinates ("<Vector (-0.4, -0.5, -0.3)>\nbad line\n<Vector (0.2, 0.1, 0.4)>")
        = [⟨some (-(2 / 5)), some (-(1 / 2)), some (-(3 / 10))⟩,
           ⟨some (1 / 5), some (1 / 10), some (2 / 5)⟩]
    ∧ parseVectorCoordinates ("") = []
    ∧ parseVectorCoordinates ("<Vector (1, 2)>") = []
    ∧ parseVectorCoordinates ("<Vector (1, 2, 3, 4)>") = [] := by
  refine ⟨parseVectorCoordinates_eq_filterMap, ?_, ?_, by decide, by decide, by decide⟩
  · intro text h
    rw [parseVectorCoordinates_eq_filterMap]
    simp only [List.filterMap_eq_nil_iff]
    exact h
  · have e1 : parseLine ("<Vector (-0.4, -0.5, -0.3)>".data)
        = some ⟨some (-(2 / 5)), some (-(1 / 2)), some (-(3 / 10))⟩ := by
      rw [parseLine_eq_of ("<Vector (-0.4, -0.5, -0.3)>".data) ("-0.4, -0.5, -0.3".data)
        ("-0.4".data) (" -0.5".data) (" -0.3".data) (by decide) (by decide) (by decide)
        (by decide) (by decide)]
      have t1 : trimJs ("-0.4".data) = ['-', '0', '.', '4'] := by decide
      have t2 : trimJs (" -0.5".data) = ['-', '0', '.', '5'] := by decide
      have t3 : trimJs (" -0.3".data) = ['-', '0', '.', '3'] := by decide
      rw [t1, t2, t3]
      simp [parseFloatJs, digitsVal]
      norm_num
    have e2 : parseLine ("bad line".data) = none := by decide
    have e3 : parseLine ("<Vector (0.2, 0.1, 0.4)>".data)
        = some ⟨some (1 / 5), some (1 / 10), some (2 / 5)⟩ := by
      rw [parseLine_eq_of ("<Vector (0.2, 0.1, 0.4)>".data) ("0.2, 0.1, 0.4".data)
        ("0.2".data) (" 0.1".data) (" 0.4".data) (by decide) (by decide) (by decide)
        (by decide) (by decide)]
      have t1 : trimJs ("0.2".data) = ['0', '.', '2'] := by decide
      have t2 : trimJs (" 0.1".data) = ['0', '.', '1'] := by decide
      have t3 : trimJs (" 0.4".data) = ['0', '.', '4'] := by decide
      rw [t1, t2, t3]
      simp [parseFloatJs, digitsVal]
      norm_num
    have hsplit : splitOnChar '\n'
        ("<Vector (-0.4, -0.5, -0.3)>\nbad line\n<Vector (0.2, 0.1, 0.4)>".data)
        = [("<Vector (-0.4, -0.5, -0.3)>".data), ("bad line".data),
           ("<Vector (0.2, 0.1, 0.4)>".data)] := by decide
    rw [parseVectorCoordinates_eq_filterMap, hsplit]
    simp [List.filterMap, e1, e2, e3]

/-- C8 instance: the zero-matching-records conjunct applied to a
concrete text with no vector records. -/
theorem claim_C8_instance : parseVectorCoordinates ("no vectors here\njust text") = [] :=
  claim_C8.2.1 ("no vectors here\njust text") (by decide)

/-- C9 counterexample: the parser does not reject non-finite values; the
line with three dot-only fields produces a point whose components are
all NaN (modelled as none), so not every produced point has finite
components. -/
theorem claim_C9_cx :
    ¬ (∀ (text : String), ∀ p ∈ parseVectorCoordinates text,
        p.x.isSome ∧ p.y.isSome ∧ p.z.isSome) := by
  intro h
  have hmem : (⟨none, none, none⟩ : Point3J) ∈ parseVectorCoordinates ("<Vector (., ., .)>") := by
    decide
  have := h ("<Vector (., ., .)>") ⟨none, none, none⟩ hmem
  simp at this

/-- C9 amended: the parser forwards parseFloat results unchecked, so NaN
components can appear in its output (the dot-only line yields an
all-NaN point); every produced point originates from some input line on
which the pattern matched. -/
theorem claim_C9_amended :
    parseVectorCoordinates ("<Vector (., ., .)>") = [⟨none, none, none⟩]
    ∧ (∀ (text : String) (p : Point3J), p ∈ parseVectorCoordinates text →
        ∃ l ∈ splitOnChar '\n' text.data, parseLine l = some p) := by
  refine ⟨by decide, ?_⟩
  intro text p hp
  rw [parseVectorCoordinates_eq_filterMap] at hp
  exact List.mem_filterMap.mp hp

/-- C9 amended instance: the provenance conjunct applied to the all-NaN
point of the dot-only line. -/
theorem claim_C9_amended_instance :
    ∃ l ∈ splitOnChar '\n' ("<Vector (., ., .)>".data),
      parseLine l = some ⟨none, none, none⟩ :=
  claim_C9_amended.2 ("<Vector (., ., .)>") ⟨none, none, none⟩ (by decide)

/-! ## Seat generation (seatCoordinateParser.js and coordinateLoader.js) -/

/-- convertToThreeCoordinates: swap the second and third components. -/
def convertToThreeCoordinates (coordinates : List Point3J) : List Point3J :=
  coordinates.map (fun coord => ⟨coord.x, coord.z, coord.y⟩)

/-- A seat as produced by the bulk import path; row, number and price
are JavaScript numbers because NaN coordinates propagate into them. -/
structure SeatJ where
  id : String
  sectionName : String
  row : JNum
  number : JNum
  price : JNum
  coordinates : Point3J
deriving DecidableEq, Repr

/-- The body of the map callback of generateSeatsFromCoordinates:
section by the sign of x, row and number by a floor-times-ten-mod-ten
rule, and price by a height formula.  The source field name section is a
Lean keyword and is embedded as sectionName. -/
def genSeatOne (coord : Point3J) : SeatJ :=
  let sectionName := if jlt (some 0) coord.x then "B" else "A"
  let row := jadd (jmod (jfloor (jmul (jabs coord.y) (some 10))) (some 10)) (some 1)
  let number := jadd (jmod (jfloor (jmul (jabs coord.x) (some 10))) (some 10)) (some 1)
  let height := jabs coord.z
  let price := jfloor (jadd (some 100) (jmul height (some 50)))
  { id := sectionName ++ jnumStr row ++ jnumStr number
    sectionName := sectionName
    row := row
    number := number
    price := price
    coordinates := coord }

/-- generateSeatsFromCoordinates from seatCoordinateParser.js. -/
def generateSeatsFromCoordinates (coordinates : List Point3J) : List SeatJ :=
  coordinates.map genSeatOne

/-- parseAndGenerateSeats from seatCoordinateParser.js. -/
def parseAndGenerateSeats (text : String) : List SeatJ :=
  generateSeatsFromCoordinates (convertToThreeCoordinates (parseVectorCoordinates text))

/-- A price tier of enhanceSeats; none as maxDistance models Infinity. -/
structure PriceTier where
  maxDistance : Option ℚ
  price : ℚ
deriving DecidableEq, Repr

/-- The price tiers of enhanceSeats in coordinateLoader.js. -/
def priceTiers : List PriceTier :=
  [⟨some (2 / 10), 250⟩, ⟨some (4 / 10), 200⟩, ⟨some (6 / 10), 150⟩,
   ⟨some (8 / 10), 120⟩, ⟨none, 100⟩]

/-- The tier predicate distance <= tier.maxDistance with JavaScript
comparison semantics (false on NaN, true against Infinity except for
NaN). -/
def tierMatches (distance : JNum) (tier : PriceTier) : Bool :=
  match distance, tier.maxDistance with
  | some d, some m => d ≤ m
  | some _, none => true
  | none, _ => false

/-- Price determination of enhanceSeats: the first matching tier, or the
literal 100 fallback when find returns undefined. -/
def priceForDistance (distance : JNum) : ℚ :=
  match priceTiers.find? (tierMatches distance) with
  | some tier => tier.price
  | none => 100

/-- Quadrant determination of enhanceSeats. -/
def quadrantOf (p : Point3J) : String :=
  if jlt p.x (some 0) then (if jlt p.y (some 0) then "bottomLeft" else "topLeft")
  else (if jlt p.y (some 0) then "bottomRight" else "topRight")

/-- The section list per quadrant of enhanceSeats. -/
def sectionListFor (quadrant : String) : List String :=
  if quadrant = "topLeft" then ["A", "B", "C"]
  else if quadrant = "topRight" then ["D", "E", "F"]
  else if quadrant = "bottomLeft" then ["G", "H", "J"]
  else ["K", "L", "M"]

/-- JavaScript array indexing with a number index: undefined (none)
unless the index is a nonnegative integer within range. -/
def indexList (l : List String) (i : JNum) : Option String :=
  match i with
  | some q => if q.den = 1 ∧ 0 ≤ q.num then l.get? q.num.toNat else none
  | none => none

/-- String interpolation of a possibly undefined value. -/
def strOrUndef : Option String → String
  | some s => s
  | none => "undefined"

/-- A seat as produced by the file-load enhancement path.  The section
is an Option because an out-of-range index read yields undefined. -/
structure EnhancedSeat where
  id : String
  sectionName : Option String
  row : JNum
  number : JNum
  price : ℚ
  coordinates : Point3J
  originalIndex : ℕ
deriving DecidableEq, Repr

/-- The body of the map callback of enhanceSeats, taking the element
and its index, parameterized by the value of Math.sqrt (kept abstract;
NaN-propagation is the responsibility of the parameter). -/
def enhanceSeatOne (sqrtF : JNum → JNum) (pair : ℕ × SeatJ) : EnhancedSeat :=
  let index := pair.1
  let seat := pair.2
  let quadrant := quadrantOf seat.coordinates
  let distance := sqrtF (jadd (jpow seat.coordinates.x 2) (jpow seat.coordinates.y 2))
  let price := priceForDistance distance
  let sectionList := sectionListFor quadrant
  let sectionIndex := jmin (jfloor (jmul distance (some (sectionList.length : ℚ))))
    (some ((sectionList.length : ℚ) - 1))
  let sectionName := indexList sectionList sectionIndex
  let row := jadd (jfloor (jmul (jabs seat.coordinates.y) (some 10))) (some 1)
  let number := jadd (jfloor (jmul (jabs seat.coordinates.x) (some 10))) (some 1)
  { id := strOrUndef sectionName ++ jnumStr row ++ "-" ++ jnumStr number
    sectionName := sectionName
    row := row
    number := number
    price := price
    coordinates := seat.coordinates
    originalIndex := index }

/-- enhanceSeats from coordinateLoader.js: map over the seats with their
indices. -/
def enhanceSeats (sqrtF : JNum → JNum) (basicSeats : List SeatJ) : List EnhancedSeat :=
  basicSeats.enum.map (enhanceSeatOne sqrtF)

/-- The outcome of the fetch of coordinates.txt. -/
inductive FetchOutcome where
  | netError (msg : String)
  | respond (ok : Bool) (status : ℕ) (statusText : String) (text : String)

/-- The try-block of loadSeatsFromFile: throw on a rejected fetch or a
non-ok response, otherwise parse, generate and enhance. -/
def loadSeatsBody (sqrtF : JNum → JNum) : FetchOutcome → Except String (List EnhancedSeat)
  | FetchOutcome.netError msg => Except.error msg
  | FetchOutcome.respond ok status statusText text =>
    if ok then Except.ok (enhanceSeats sqrtF (parseAndGenerateSeats text))
    else Except.error ("Failed to load coordinates.txt: " ++ toString status ++ " " ++ statusText)

/-- loadSeatsFromFile from coordinateLoader.js: the catch-block returns
the empty array on any error, so the caller never sees an exception. -/
def loadSeatsFromFile (sqrtF : JNum → JNum) (o : FetchOutcome) : List EnhancedSeat :=
  match loadSeatsBody sqrtF o with
  | Except.ok seats => seats
  | Except.error _ => []

/-- handleSeatsImported in App.js: replace the available seat set only
when the imported list is nonempty (restricted to the seat state; the
accompanying selection and importer-visibility resets are UI state). -/
def handleSeatsImported {α : Type} (seats : List α) (availableSeats : List α) : List α :=
  if 0 < seats.length then seats else availableSeats

/-- The seat-set update of the loadSeats effect in App.js (and of
resetToFileSeats): replace the available seat set only when the loaded
list is nonempty. -/
def appLoadSeatsUpdate {α : Type} (seats : List α) (availableSeats : List α) : List α :=
  if 0 < seats.length then seats else availableSeats

theorem jsTrunc_of_nonneg (q : ℚ) (h : 0 ≤ q) : jsTrunc q = ⌊q⌋ := by
  simp [jsTrunc, h]

theorem jmod_intCast_ten (n : ℤ) (hn : 0 ≤ n) :
    jmod (some ((n : ℚ))) (some 10) = some (((n % 10 : ℤ) : ℚ)) := by
  have h10 : ((10 : ℚ)) ≠ 0 := by norm_num
  have hnn : (0 : ℚ) ≤ (n : ℚ) / 10 := by positivity
  have hfloor : ⌊((n : ℚ)) / 10⌋ = n / 10 := by
    have hc : ((10 : ℚ)) = ((10 : ℕ) : ℚ) := by norm_num
    rw [hc, Rat.floor_intCast_div_natCast]
    norm_num
  rw [jmod, if_neg h10, jsTrunc_of_nonneg _ hnn, hfloor]
  have hval : ((n : ℚ)) - 10 * ((n / 10 : ℤ) : ℚ) = ((n % 10 : ℤ) : ℚ) := by
    have hdm : ((10 * (n / 10) + n % 10 : ℤ) : ℚ) = ((n : ℤ) : ℚ) :=
      congrArg _ (Int.ediv_add_emod n 10)
    push_cast at hdm ⊢
    linarith
  rw [hval]

theorem priceForDistance_le_point2 (d : ℚ) (h : d ≤ 2 / 10) : priceForDistance (some d) = 250 := by
  have m1 : tierMatches (some d) ⟨some (2 / 10), 250⟩ = true := by
    simp [tierMatches]; linarith
  simp [priceForDistance, priceTiers, List.find?, m1]

theorem priceForDistance_tier2 (d : ℚ) (h1 : 2 / 10 < d) (h2 : d ≤ 4 / 10) :
    priceForDistance (some d) = 200 := by
  have m1 : tierMatches (some d) ⟨some (2 / 10), 250⟩ = false := by
    simp [tierMatches]; linarith
  have m2 : tierMatches (some d) ⟨some (4 / 10), 200⟩ = true := by
    simp [tierMatches]; linarith
  simp [priceForDistance, priceTiers, List.find?, m1, m2]

theorem priceForDistance_tier3 (d : ℚ) (h1 : 4 / 10 < d) (h2 : d ≤ 6 / 10) :
    priceForDistance (some d) = 150 := by
  have m1 : tierMatches (some d) ⟨some (2 / 10), 250⟩ = false := by
    simp [tierMatches]; linarith
  have m2 : tierMatches (some d) ⟨some (4 / 10), 200⟩ = false := by
    simp [tierMatches]; linarith
  have m3 : tierMatches (some d) ⟨some (6 / 10), 150⟩ = true := by
    simp [tierMatches]; linarith
  simp [priceForDistance, priceTiers, List.find?, m1, m2, m3]

theorem priceForDistance_tier4 (d : ℚ) (h1 : 6 / 10 < d) (h2 : d ≤ 8 / 10) :
    priceForDistance (some d) = 120 := by
  have m1 : tierMatches (some d) ⟨some (2 / 10), 250⟩ = false := by
    simp [tierMatches]; linarith
  have m2 : tierMatches (some d) ⟨some (4 / 10), 200⟩ = false := by
    simp [tierMatches]; linarith
  have m3 : tierMatches (some d) ⟨some (6 / 10), 150⟩ = false := by
    simp [tierMatches]; linarith
  have m4 : tierMatches (some d) ⟨some (8 / 10), 120⟩ = true := by
    simp [tierMatches]; linarith
  simp [priceForDistance, priceTiers, List.find?, m1, m2, m3, m4]

theorem priceForDistance_tier5 (d : ℚ) (h1 : 8 / 10 < d) : priceForDistance (some d) = 100 := by
  have m1 : tierMatches (some d) ⟨some (2 / 10), 250⟩ = false := by
    simp [tierMatches]; linarith
  have m2 : tierMatches (some d) ⟨some (4 / 10), 200⟩ = false := by
    simp [tierMatches]; linarith
  have m3 : tierMatches (some d) ⟨some (6 / 10), 150⟩ = false := by
    simp [tierMatches]; linarith
  have m4 : tierMatches (some d) ⟨some (8 / 10), 120⟩ = false := by
    simp [tierMatches]; linarith
  have m5 : tierMatches (some d) ⟨none, 100⟩ = true := by simp [tierMatches]
  simp [priceForDistance, priceTiers, List.find?, m1, m2, m3, m4, m5]

theorem genSeatOne_price (x y z : ℚ) :
    (genSeatOne ⟨some x, some y, some z⟩).price = some (((⌊100 + |z| * 50⌋ : ℤ) : ℚ)) := by
  simp [genSeatOne, jabs, jmul, jfloor, jadd]

theorem genSeatOne_row_number (x y z : ℚ) :
    (genSeatOne ⟨some x, some y, some z⟩).row
        = some ((((⌊|y| * 10⌋ % 10 : ℤ)) : ℚ) + 1)
      ∧ (genSeatOne ⟨some x, some y, some z⟩).number
        = some ((((⌊|x| * 10⌋ % 10 : ℤ)) : ℚ) + 1) := by
  have hy : (0 : ℤ) ≤ ⌊|y| * 10⌋ := Int.floor_nonneg.mpr (by positivity)
  have hx : (0 : ℤ) ≤ ⌊|x| * 10⌋ := Int.floor_nonneg.mpr (by positivity)
  constructor
  · simp only [genSeatOne, jabs, Option.map_some', jmul, jfloor]
    rw [jmod_intCast_ten _ hy]
    simp [jadd]
  · simp only [genSeatOne, jabs, Option.map_some', jmul, jfloor]
    rw [jmod_intCast_ten _ hx]
    simp [jadd]

theorem enhanceSeatOne_row_number (sqrtF : JNum → JNum) (i : ℕ) (s : SeatJ) (x y z : ℚ)
    (hc : s.coordinates = ⟨some x, some y, some z⟩) :
    (enhanceSeatOne sqrtF (i, s)).row = some (((⌊|y| * 10⌋ : ℤ) : ℚ) + 1)
      ∧ (enhanceSeatOne sqrtF (i, s)).number = some (((⌊|x| * 10⌋ : ℤ) : ℚ) + 1) := by
  constructor
  · simp [enhanceSeatOne, hc, jabs, jmul, jfloor, jadd]
  · simp [enhanceSeatOne, hc, jabs, jmul, jfloor, jadd]

/-- C5 counterexample: on the bulk import path the seat derived from the
coordinate with x = 3/20, y = 0, z = 0 (radial distance 3/20 = 0.15) is
priced by the height formula at 100, not at the 250 of the radial tier
lookup, so the claim that every path prices by the radial tiers is
false at this input. -/
theorem claim_C5_cx :
    (generateSeatsFromCoordinates [⟨some (3 / 20), some 0, some 0⟩]).map (fun s => s.price)
      ≠ [some (priceForDistance (some (3 / 20)))] := by
  have hl : (generateSeatsFromCoordinates [⟨some (3 / 20), some 0, some 0⟩]).map
      (fun s => s.price) = [some 100] := by
    simp [generateSeatsFromCoordinates, genSeatOne_price]
  have hr : priceForDistance (some (3 / 20)) = 250 :=
    priceForDistance_le_point2 _ (by norm_num)
  rw [hl, hr]
  simp

/-- C5 amended: the radial price tiers hold on the file-load enhancement
path: when the abstract square root returns the true radial distance d
of a seat coordinate, the enhanced price is the boundary-inclusive tier
lookup at d, with tier values 250, 200, 150, 120, 100 at thresholds
2/10, 4/10, 6/10, 8/10 and the instances d = 0.15 to 250, d = 0.5 to
150, d = 5 to 100; the bulk import path instead prices by height as
floor of 100 plus fifty times the absolute third component. -/
theorem claim_C5_amended :
    (∀ (sqrtF : JNum → JNum) (seats : List SeatJ) (i : ℕ) (s : SeatJ) (x y d : ℚ),
        seats.get? i = some s → s.coordinates.x = some x → s.coordinates.y = some y →
        sqrtF (jadd (jpow (some x) 2) (jpow (some y) 2)) = some d →
        ∃ e : EnhancedSeat, (enhanceSeats sqrtF seats).get? i = some e
          ∧ e.price = priceForDistance (some d))
    ∧ (∀ d : ℚ, 0 ≤ d →
        (d ≤ 2 / 10 → priceForDistance (some d) = 250)
        ∧ (2 / 10 < d → d ≤ 4 / 10 → priceForDistance (some d) = 200)
        ∧ (4 / 10 < d → d ≤ 6 / 10 → priceForDistance (some d) = 150)
        ∧ (6 / 10 < d → d ≤ 8 / 10 → priceForDistance (some d) = 120)
        ∧ (8 / 10 < d → priceForDistance (some d) = 100))
    ∧ priceForDistance (some (15 / 100)) = 250
    ∧ priceForDistance (some (1 / 2)) = 150
    ∧ priceForDistance (some 5) = 100
    ∧ (∀ (coords : List Point3J) (i : ℕ) (x y z : ℚ),
        coords.get? i = some ⟨some x, some y, some z⟩ →
        ∃ s : SeatJ, (generateSeatsFromCoordinates coords).get? i = some s
          ∧ s.price = some (((⌊100 + |z| * 50⌋ : ℤ) : ℚ))) := by
  refine ⟨?_, ?_, priceForDistance_le_point2 _ (by norm_num),
    priceForDistance_tier3 _ (by norm_num) (by norm_num),
    priceForDistance_tier5 _ (by norm_num), ?_⟩
  · intro sqrtF seats i s x y d hs hx hy hd
    refine ⟨enhanceSeatOne sqrtF (i, s), ?_, ?_⟩
    · rw [enhanceSeats, List.get?_map, List.get?_enum, hs, Option.map_some', Option.map_some']
    · simp [enhanceSeatOne, hx, hy, hd]
  · intro d _
    exact ⟨fun h => priceForDistance_le_point2 d h,
      fun h1 h2 => priceForDistance_tier2 d h1 h2,
      fun h1 h2 => priceForDistance_tier3 d h1 h2,
      fun h1 h2 => priceForDistance_tier4 d h1 h2,
      fun h1 => priceForDistance_tier5 d h1⟩
  · intro coords i x y z h
    refine ⟨genSeatOne ⟨some x, some y, some z⟩, ?_, genSeatOne_price x y z⟩
    rw [generateSeatsFromCoordinates, List.get?_map, h, Option.map_some']

/-- C5 amended instance: the conjuncts with hypotheses applied at
concrete inputs: a singleton seat list with coordinate x = 3/10,
y = 4/10 and a square root returning the exact distance 1/2, and the
bulk path at the same coordinate. -/
theorem claim_C5_amended_instance :
    (∃ e : EnhancedSeat,
      (enhanceSeats (fun _ => some (1 / 2))
          [⟨"A11", "A", some 1, some 1, some 100, ⟨some (3 / 10), some (4 / 10), some 0⟩⟩]).get? 0
        = some e
      ∧ e.price = priceForDistance (some (1 / 2)))
    ∧ priceForDistance (some (1 / 2)) = 150
    ∧ (∃ s : SeatJ,
      (generateSeatsFromCoordinates [⟨some (3 / 10), some (4 / 10), some 0⟩]).get? 0 = some s
        ∧ s.price = some (((⌊100 + |(0 : ℚ)| * 50⌋ : ℤ) : ℚ))) :=
  ⟨claim_C5_amended.1 (fun _ => some (1 / 2))
      [⟨"A11", "A", some 1, some 1, some 100, ⟨some (3 / 10), some (4 / 10), some 0⟩⟩]
      0 ⟨"A11", "A", some 1, some 1, some 100, ⟨some (3 / 10), some (4 / 10), some 0⟩⟩
      (3 / 10) (4 / 10) (1 / 2) rfl rfl rfl rfl,
    (claim_C5_amended.2.1 (1 / 2) (by norm_num)).2.2.1 (by norm_num) (by norm_num),
    claim_C5_amended.2.2.2.2.2 [⟨some (3 / 10), some (4 / 10), some 0⟩] 0
      (3 / 10) (4 / 10) 0 rfl⟩

/-- C6 counterexample: on the bulk import path the seat derived from the
coordinate with y = 1 has row 1 (the code reduces the floored value
modulo ten before adding one), not the 11 demanded by the claimed
formula floor of absolute y times ten plus one. -/
theorem claim_C6_cx :
    (generateSeatsFromCoordinates [⟨some 0, some 1, some 0⟩]).map (fun s => s.row)
      ≠ [some (((⌊|(1 : ℚ)| * 10⌋ : ℤ) : ℚ) + 1)] := by
  have hl : (generateSeatsFromCoordinates [⟨some 0, some 1, some 0⟩]).map (fun s => s.row)
      = [some 1] := by
    simp [generateSeatsFromCoordinates, jabs, jmul, jfloor, jadd, jmod, jsTrunc, jlt, genSeatOne]
  have hr : (((⌊|(1 : ℚ)| * 10⌋ : ℤ) : ℚ) + 1) = 11 := by norm_num
  rw [hl, hr]
  simp

/-- C6 amended: the row and seat number equal the floor of ten times the
absolute secondary and primary horizontal coordinate plus one on the
file-load enhancement path; on the bulk import path the floored value is
first reduced modulo ten, so the two paths agree exactly on coordinates
whose components are below one in absolute value. -/
theorem claim_C6_amended :
    (∀ (coords : List Point3J) (i : ℕ) (x y z : ℚ),
        coords.get? i = some ⟨some x, some y, some z⟩ →
        ∃ s : SeatJ, (generateSeatsFromCoordinates coords).get? i = some s
          ∧ s.row = some ((((⌊|y| * 10⌋ % 10 : ℤ)) : ℚ) + 1)
          ∧ s.number = some ((((⌊|x| * 10⌋ % 10 : ℤ)) : ℚ) + 1))
    ∧ (∀ (sqrtF : JNum → JNum) (seats : List SeatJ) (i : ℕ) (s : SeatJ) (x y z : ℚ),
        seats.get? i = some s → s.coordinates = ⟨some x, some y, some z⟩ →
        ∃ e : EnhancedSeat, (enhanceSeats sqrtF seats).get? i = some e
          ∧ e.row = some (((⌊|y| * 10⌋ : ℤ) : ℚ) + 1)
          ∧ e.number = some (((⌊|x| * 10⌋ : ℤ) : ℚ) + 1))
    ∧ (∀ q : ℚ, |q| < 1 → (⌊|q| * 10⌋ % 10 : ℤ) = ⌊|q| * 10⌋) := by
  refine ⟨?_, ?_, ?_⟩
  · intro coords i x y z h
    refine ⟨genSeatOne ⟨some x, some y, some z⟩, ?_, genSeatOne_row_number x y z⟩
    rw [generateSeatsFromCoordinates, List.get?_map, h, Option.map_some']
  · intro sqrtF seats i s x y z hs hc
    refine ⟨enhanceSeatOne sqrtF (i, s), ?_, enhanceSeatOne_row_number sqrtF i s x y z hc⟩
    rw [enhanceSeats, List.get?_map, List.get?_enum, hs, Option.map_some', Option.map_some']
  · intro q hq
    have h0 : (0 : ℤ) ≤ ⌊|q| * 10⌋ := Int.floor_nonneg.mpr (by positivity)
    have h10 : ⌊|q| * 10⌋ < 10 := by
      rw [Int.floor_lt]
      push_cast
      nlinarith [abs_nonneg q]
    exact Int.emod_eq_of_lt h0 h10

/-- C6 amended instance: the three conjuncts applied at a concrete
coordinate with components 1/2 and 3/2 and at q = 1/2. -/
theorem claim_C6_amended_instance :
    (∃ s : SeatJ,
      (generateSeatsFromCoordinates [⟨some (1 / 2), some (3 / 2), some 0⟩]).get? 0 = some s
        ∧ s.row = some ((((⌊|(3 / 2 : ℚ)| * 10⌋ % 10 : ℤ)) : ℚ) + 1)
        ∧ s.number = some ((((⌊|(1 / 2 : ℚ)| * 10⌋ % 10 : ℤ)) : ℚ) + 1))
    ∧ (∃ e : EnhancedSeat,
      (enhanceSeats (fun d => d)
          [⟨"A11", "A", some 1, some 1, some 100, ⟨some (1 / 2), some (3 / 2), some 0⟩⟩]).get? 0
        = some e
        ∧ e.row = some (((⌊|(3 / 2 : ℚ)| * 10⌋ : ℤ) : ℚ) + 1)
        ∧ e.number = some (((⌊|(1 / 2 : ℚ)| * 10⌋ : ℤ) : ℚ) + 1))
    ∧ (⌊|(1 / 2 : ℚ)| * 10⌋ % 10 : ℤ) = ⌊|(1 / 2 : ℚ)| * 10⌋ :=
  ⟨claim_C6_amended.1 [⟨some (1 / 2), some (3 / 2), some 0⟩] 0 (1 / 2) (3 / 2) 0 rfl,
    claim_C6_amended.2.1 (fun d => d)
      [⟨"A11", "A", some 1, some 1, some 100, ⟨some (1 / 2), some (3 / 2), some 0⟩⟩]
      0 ⟨"A11", "A", some 1, some 1, some 100, ⟨some (1 / 2), some (3 / 2), some 0⟩⟩
      (1 / 2) (3 / 2) 0 rfl rfl,
    claim_C6_amended.2.2 (1 / 2) (by rw [abs_lt]; norm_num)⟩

/-- C10: loadSeatsFromFile resolves to the empty list on a rejected
fetch or a non-ok response and never propagates an exception (the catch
block maps every error of the body to the empty list and passes every
success through); the seat-set handlers replace the available seats only
when the new list is nonempty, so a failed or empty import or reload
leaves the previously exposed seat set unchanged. -/
theorem claim_C10 :
    (∀ (sqrtF : JNum → JNum) (msg : String),
        loadSeatsFromFile sqrtF (FetchOutcome.netError msg) = [])
    ∧ (∀ (sqrtF : JNum → JNum) (status : ℕ) (statusText text : String),
        loadSeatsFromFile sqrtF (FetchOutcome.respond false status statusText text) = [])
    ∧ (∀ (sqrtF : JNum → JNum) (o : FetchOutcome),
        (∀ msg, loadSeatsBody sqrtF o = Except.error msg → loadSeatsFromFile sqrtF o = [])
        ∧ (∀ seats, loadSeatsBody sqrtF o = Except.ok seats → loadSeatsFromFile sqrtF o = seats))
    ∧ (∀ (α : Type) (old : List α), handleSeatsImported [] old = old)
    ∧ (∀ (α : Type) (old : List α), appLoadSeatsUpdate [] old = old)
    ∧ (∀ (sqrtF : JNum → JNum) (status : ℕ) (statusText text : String)
        (old : List EnhancedSeat), parseVectorCoordinates text = [] →
        appLoadSeatsUpdate
          (loadSeatsFromFile sqrtF (FetchOutcome.respond true status statusText text)) old = old)
    ∧ (∀ (sqrtF : JNum → JNum) (msg : String) (old : List EnhancedSeat),
        appLoadSeatsUpdate (loadSeatsFromFile sqrtF (FetchOutcome.netError msg)) old = old) := by
  refine ⟨?_, ?_, ?_, ?_, ?_, ?_, ?_⟩
  · intro sqrtF msg
    simp [loadSeatsFromFile, loadSeatsBody]
  · intro sqrtF status statusText text
    simp [loadSeatsFromFile, loadSeatsBody]
  · intro sqrtF o
    constructor
    · intro msg h
      simp [loadSeatsFromFile, h]
    · intro seats h
      simp [loadSeatsFromFile, h]
  · intro α old
    simp [handleSeatsImported]
  · intro α old
    simp [appLoadSeatsUpdate]
  · intro sqrtF status statusText text old h
    simp [loadSeatsFromFile, loadSeatsBody, parseAndGenerateSeats, convertToThreeCoordinates,
      generateSeatsFromCoordinates, enhanceSeats, h, appLoadSeatsUpdate]
  · intro sqrtF msg old
    simp [loadSeatsFromFile, loadSeatsBody, appLoadSeatsUpdate]

/-- C10 instance: the conjuncts with hypotheses applied at concrete
inputs: the body error for a rejected fetch, the body success for an ok
response with no matching records, and an ok response whose text parses
to no coordinates leaving a one-element previous seat set unchanged. -/
theorem claim_C10_instance :
    loadSeatsFromFile (fun d => d) (FetchOutcome.netError ("boom")) = []
    ∧ loadSeatsFromFile (fun d => d) (FetchOutcome.respond true 200 ("OK") ("plain text")) = []
    ∧ appLoadSeatsUpdate
        (loadSeatsFromFile (fun d => d) (FetchOutcome.respond true 200 ("OK") ("plain text")))
        [⟨"A1-1", some ("A"), some 1, some 1, 100, ⟨some 0, some 0, some 0⟩, 0⟩] =
      [⟨"A1-1", some ("A"), some 1, some 1, 100, ⟨some 0, some 0, some 0⟩, 0⟩] :=
  ⟨(claim_C10.2.2.1 (fun d => d) (FetchOutcome.netError ("boom"))).1 ("boom") rfl,
    (claim_C10.2.2.1 (fun d => d) (FetchOutcome.respond true 200 ("OK") ("plain text"))).2 []
      (by simp [loadSeatsBody, parseAndGenerateSeats, convertToThreeCoordinates,
        generateSeatsFromCoordinates, enhanceSeats]; decide),
    claim_C10.2.2.2.2.2.1 (fun d => d) 200 ("OK") ("plain text")
      [⟨"A1-1", some ("A"), some 1, some 1, 100, ⟨some 0, some 0, some 0⟩, 0⟩] (by decide)⟩

/-! ## StadiumMap.js: normalization and the per-seat transform -/

/-- A rational 3D point, used for the transform layer (the transform
claims quantify over numeric coordinates). -/
structure P3 where
  x : ℚ
  y : ℚ
  z : ℚ
deriving DecidableEq, Repr

/-- The return value of calcScalingFactors.  The early return for an
empty input carries the fields xScale and zScale but no scale field,
while the main branch carries scale but neither xScale nor zScale;
absent fields read as undefined and are modelled with none. -/
structure ScalingFactors where
  xScale : Option ℚ
  zScale : Option ℚ
  scale : Option ℚ
  xOffset : ℚ
  zOffset : ℚ
deriving DecidableEq, Repr

/-- calcScalingFactors from StadiumMap.js.  The forEach over the
coordinates accumulating the four extrema from infinite initial values
is embedded as four folds starting from the first element, which agrees
with it on every nonempty list. -/
def calcScalingFactors (coordinates : List (ℚ × ℚ)) : ScalingFactors :=
  match coordinates with
  | [] => { xScale := some 1, zScale := some 1, scale := none, xOffset := 0, zOffset := 0 }
  | c :: cs =>
    let minX := cs.foldl (fun acc p => min acc p.1) c.1
    let maxX := cs.foldl (fun acc p => max acc p.1) c.1
    let minZ := cs.foldl (fun acc p => min acc p.2) c.2
    let maxZ := cs.foldl (fun acc p => max acc p.2) c.2
    let width := maxX - minX
    let height := maxZ - minZ
    let xScale : ℚ := if 0 < width then 20 / width else 1
    let zScale : ℚ := if 0 < height then 20 / height else 1
    let scale := min xScale zScale * (95 / 100)
    let centerX := (minX + maxX) / 2
    let centerZ := (minZ + maxZ) / 2
    { xScale := none, zScale := none, scale := some scale,
      xOffset := -centerX, zOffset := -centerZ }

/-- The baseScale and baseOffset recomputation effect of StadiumMap:
project each seat coordinate to its horizontal pair, run
calcScalingFactors, and store factors.scale as baseScale and the two
offsets as baseOffset. -/
def stadiumBaseUpdate (seatCoordinates : List P3) : Option ℚ × ℚ × ℚ :=
  let coordinates := seatCoordinates.map (fun s => (s.x, s.z))
  let factors := calcScalingFactors coordinates
  (factors.scale, factors.xOffset, factors.zOffset)

/-- C1 counterexample: for a single-seat set the normalization yields
baseScale 19/20 = 0.95 (both per-axis factors fall back to 1 and the
margin factor 0.95 still applies), not the claimed 1. -/
theorem claim_C1_cx :
    (stadiumBaseUpdate [⟨3, 7, 5⟩]).1 ≠ some 1 := by
  have h : stadiumBaseUpdate [⟨3, 7, 5⟩] = (some (19 / 20), -3, -5) := by
    simp [stadiumBaseUpdate, calcScalingFactors]
    norm_num
  rw [h]
  simp
  norm_num

/-- C1 amended: for the empty seat set the early return carries per-axis
factors of 1 and offsets of 0 but no scale field, so the composed
baseScale is undefined (none) rather than 1; for a single-seat set no
division by zero occurs (both guarded divisions fall back to 1), the
composed baseScale is 19/20 and baseOffset is the negation of the
horizontal coordinates of the point. -/
theorem claim_C1_amended :
    stadiumBaseUpdate [] = (none, 0, 0)
    ∧ calcScalingFactors [] = ⟨some 1, some 1, none, 0, 0⟩
    ∧ (∀ p : P3, stadiumBaseUpdate [p] = (some (19 / 20), -p.x, -p.z)) := by
  refine ⟨rfl, rfl, ?_⟩
  intro p
  simp [stadiumBaseUpdate, calcScalingFactors]
  norm_num

/-- The per-seat transform composition of Transformations values; the
four user fields, the derived base scale and the derived base offset,
all rational. -/
structure Transformations where
  scale : ℚ
  rotation : ℚ
  translateX : ℚ
  translateY : ℚ
  baseScale : ℚ
  baseOffsetX : ℚ
  baseOffsetZ : ℚ

/-- The transform pipeline of the Seat component in StadiumMap.js,
parameterized by the values of Math.PI, Math.cos and Math.sin. -/
def seatTransformedPosition (piVal : ℚ) (cosF sinF : ℚ → ℚ) (t : Transformations)
    (position : ℚ × ℚ × ℚ) : ℚ × ℚ × ℚ :=
  let angle := t.rotation * (piVal / 180)
  let basePosition : ℚ × ℚ × ℚ :=
    ((position.1 + t.baseOffsetX) * t.baseScale, 1, (position.2.2 + t.baseOffsetZ) * t.baseScale)
  let flippedX := basePosition.1
  let flippedZ := -basePosition.2.2
  let rotatedX := flippedX * cosF angle - flippedZ * sinF angle
  let rotatedZ := flippedX * sinF angle + flippedZ * cosF angle
  (rotatedX * t.scale + t.translateX, basePosition.2.1, rotatedZ * t.scale + t.translateY)

/-- The re-derived transform inside handleSeatSelect in StadiumMap.js
(textually the same computation as in the Seat component). -/
def handleSeatSelectPosition (piVal : ℚ) (cosF sinF : ℚ → ℚ) (t : Transformations)
    (position : ℚ × ℚ × ℚ) : ℚ × ℚ × ℚ :=
  let basePosition : ℚ × ℚ × ℚ :=
    ((position.1 + t.baseOffsetX) * t.baseScale, 1, (position.2.2 + t.baseOffsetZ) * t.baseScale)
  let flippedX := basePosition.1
  let flippedZ := -basePosition.2.2
  let angle := t.rotation * (piVal / 180)
  let rotatedX := flippedX * cosF angle - flippedZ * sinF angle
  let rotatedZ := flippedX * sinF angle + flippedZ * cosF angle
  (rotatedX * t.scale + t.translateX, basePosition.2.1, rotatedZ * t.scale + t.translateY)

/-- Modelled from the spec wording of phase B, step 1: normalization
with the elevation fixed to the constant 1. -/
def specNormalizeStep (t : Transformations) (p : ℚ × ℚ × ℚ) : ℚ × ℚ × ℚ :=
  ((p.1 + t.baseOffsetX) * t.baseScale, 1, (p.2.2 + t.baseOffsetZ) * t.baseScale)

/-- Modelled from the spec wording of phase B, step 2: negate the depth
axis only. -/
def specMirrorStep (p : ℚ × ℚ × ℚ) : ℚ × ℚ × ℚ :=
  (p.1, p.2.1, -p.2.2)

/-- Modelled from the spec wording of phase B, step 3: standard 2D
rotation of the horizontal pair by the given cosine and sine. -/
def specRotateStep (cosv sinv : ℚ) (p : ℚ × ℚ × ℚ) : ℚ × ℚ × ℚ :=
  (p.1 * cosv - p.2.2 * sinv, p.2.1, p.1 * sinv + p.2.2 * cosv)

/-- Modelled from the spec wording of phase B, step 4: uniform scaling
of the horizontal pair. -/
def specScaleStep (s : ℚ) (p : ℚ × ℚ × ℚ) : ℚ × ℚ × ℚ :=
  (p.1 * s, p.2.1, p.2.2 * s)

/-- Modelled from the spec wording of phase B, step 5: translation of
the horizontal pair. -/
def specTranslateStep (tx ty : ℚ) (p : ℚ × ℚ × ℚ) : ℚ × ℚ × ℚ :=
  (p.1 + tx, p.2.1, p.2.2 + ty)

/-- Modelled from the spec: the five steps composed in the stated order,
with the rotation angle in radians obtained from rotationDegrees. -/
def specComposedPosition (piVal : ℚ) (cosF sinF : ℚ → ℚ) (t : Transformations)
    (position : ℚ × ℚ × ℚ) : ℚ × ℚ × ℚ :=
  let angle := t.rotation * (piVal / 180)
  specTranslateStep t.translateX t.translateY
    (specScaleStep t.scale
      (specRotateStep (cosF angle) (sinF angle)
        (specMirrorStep (specNormalizeStep t position))))

/-- C7: for every seat coordinate, transform configuration and values of
Math.PI, Math.cos and Math.sin, the render position computed by the Seat
component equals the five-step composition in the order stated by the
spec (normalize with constant elevation, mirror depth only, rotate by
the degree-to-radian angle, uniform user scale, translate), and the
re-derivation inside handleSeatSelect computes the same position; the
elevation of the result is the constant 1 regardless of the input y. -/
theorem claim_C7 :
    ∀ (piVal : ℚ) (cosF sinF : ℚ → ℚ) (t : Transformations) (position : ℚ × ℚ × ℚ),
      seatTransformedPosition piVal cosF sinF t position
          = specComposedPosition piVal cosF sinF t position
      ∧ handleSeatSelectPosition piVal cosF sinF t position
          = seatTransformedPosition piVal cosF sinF t position
      ∧ (seatTransformedPosition piVal cosF sinF t position).2.1 = 1 := by
  intro piVal cosF sinF t position
  refine ⟨rfl, rfl, rfl⟩

/-! ## ModelContext.js: the asynchronous model loader -/

/-- A child of the decoded scene in the shape isValidModel inspects:
its type string, whether it carries geometry, and its child count. -/
structure SceneChild where
  typeStr : String
  hasGeometry : Bool
  childCount : ℕ
deriving DecidableEq, Repr

/-- A loaded model object in the shape isValidModel and isColladaModel
inspect: an optional scene (none models a missing scene property) with
its type string and children, and the Collada marker properties. -/
structure JsModel where
  scene : Option (List SceneChild)
  sceneTypeStr : String
  dae : Bool
  kinematics : Bool
  geometries : Bool
  materials : Bool
  typeStr : Option String
deriving DecidableEq, Repr

/-- isColladaModel from ModelContext.js. -/
def isColladaModel (m : JsModel) : Bool :=
  (m.dae && m.kinematics)
  || (m.geometries && m.materials && m.kinematics)
  || (m.scene.isSome && m.sceneTypeStr = "Scene")
  || (match m.typeStr with
      | some t => containsSub ("Scene".data) t.data
      | none => false)

/-- The some-child-has-content check of isValidModel: a mesh with
geometry, or a group or plain object node with at least one child. -/
def hasMeaningfulContent (children : List SceneChild) : Bool :=
  children.any (fun child =>
    (child.typeStr = "Mesh" && child.hasGeometry)
    || ((child.typeStr = "Group" || child.typeStr = "Object3D") && decide (0 < child.childCount)))

/-- isValidModel from ModelContext.js: Collada-shaped models without a
scene are accepted outright; otherwise a scene must exist, be nonempty,
and have meaningful content. -/
def isValidModel (m : JsModel) : Bool :=
  if m.scene.isNone && isColladaModel m then true
  else
    match m.scene with
    | none => false
    | some children =>
      if children.length = 0 then false
      else hasMeaningfulContent children

/-- The fixed reason of the validation-failed branch. -/
def invalidModelMsg : String := "Model validation failed - invalid structure"

/-- The fixed reason of the branch for an absent loaded model. -/
def noModelMsg : String := "No model was loaded"

/-- The reason of a failed fetch of the model resource, embedded from
the thrown error of the non-ok response branch. -/
def fetchFailMsg (status : ℕ) (statusText : String) : String :=
  "Failed to fetch model: " ++ (toString status ++ (" " ++ statusText))

/-- The completion of one load attempt as it reaches the state update
at the end of the load effect: a validated model, a loaded model that
failed validation, no model, or a caught exception (a fetch failure or
a decoder failure) carrying its message. -/
inductive LoadOutcome (α : Type) where
  | success (m : α)
  | invalidModel
  | noModel
  | failure (msg : String)

/-- The visible model state of the provider: model, isLoading, error. -/
structure VisState (α : Type) where
  model : Option α
  isLoading : Bool
  error : Option String
deriving DecidableEq, Repr

/-- The state updates at the end of the load effect in ModelContext.js:
a valid model is stored with the error cleared, a failed validation or
missing model stores its fixed reason, a caught error stores its
message; all branches end loading and none touches the stored model
except the success branch. -/
def applyOutcome {α : Type} : LoadOutcome α → VisState α → VisState α
  | LoadOutcome.success m, _ =>
    { model := some m, isLoading := false, error := none }
  | LoadOutcome.invalidModel, s =>
    { s with error := some invalidModelMsg, isLoading := false }
  | LoadOutcome.noModel, s =>
    { s with error := some noModelMsg, isLoading := false }
  | LoadOutcome.failure msg, s =>
    { s with error := some msg, isLoading := false }

/-- The validation dispatch on a loaded model (the if-chain following
the decode in the load effect). -/
def modelOutcome {α : Type} (validity : α → Bool) (loaded : Option α) : LoadOutcome α :=
  match loaded with
  | none => LoadOutcome.noModel
  | some m => if validity m then LoadOutcome.success m else LoadOutcome.invalidModel

/-- The loader state: the visible state plus the generation of the most
recent load effect run.  Each effect run captures an isMounted flag that
its cleanup clears before the next run starts, so a completion mutates
the visible state exactly when its generation is still the current
one. -/
structure LoaderState (α : Type) where
  gen : ℕ
  vis : VisState α
deriving DecidableEq, Repr

/-- The start of a load effect run: a new generation, isLoading set,
error cleared, stored model untouched. -/
def startLoad {α : Type} (s : LoaderState α) : LoaderState α :=
  { gen := s.gen + 1, vis := { s.vis with isLoading := true, error := none } }

/-- Delivery of a completion tagged with the generation of the run that
issued it: stale completions are discarded without touching the visible
state. -/
def complete {α : Type} (g : ℕ) (o : LoadOutcome α) (s : LoaderState α) : LoaderState α :=
  if g = s.gen then { s with vis := applyOutcome o s.vis } else s

/-- C2: for any two sequential load requests where the completion of the
first arrives after the second has started, the stale completion is
discarded without mutating the visible state, and after the second
completion the visible state is exactly the application of the second
result to the state as the second request left it; in general a
completion whose generation is not the current one leaves the state
unchanged. -/
theorem claim_C2 :
    ∀ (α : Type) (s0 : LoaderState α) (o1 o2 : LoadOutcome α),
      (complete (startLoad s0).gen o1 (startLoad (startLoad s0)) = startLoad (startLoad s0))
      ∧ ((complete (startLoad (startLoad s0)).gen o2
            (complete (startLoad s0).gen o1 (startLoad (startLoad s0)))).vis
          = applyOutcome o2 (startLoad (startLoad s0)).vis)
      ∧ (∀ (g : ℕ) (o : LoadOutcome α) (s : LoaderState α), g ≠ s.gen → complete g o s = s) := by
  intro α s0 o1 o2
  have hne : (startLoad s0).gen ≠ (startLoad (startLoad s0)).gen := by
    simp [startLoad]
  have hstale : complete (startLoad s0).gen o1 (startLoad (startLoad s0))
      = startLoad (startLoad s0) := by
    rw [complete, if_neg hne]
  refine ⟨hstale, ?_, ?_⟩
  · rw [hstale, complete, if_pos rfl]
  · intro g o s hg
    rw [complete, if_neg hg]

/-- C2 instance: the stale-completion conjunct applied at a concrete
generation and state. -/
theorem claim_C2_instance :
    complete 5 (LoadOutcome.failure ("boom"))
        (⟨7, ⟨(none : Option ℕ), true, none⟩⟩ : LoaderState ℕ)
      = ⟨7, ⟨none, true, none⟩⟩ :=
  (claim_C2 ℕ ⟨0, ⟨none, true, none⟩⟩ (LoadOutcome.noModel) (LoadOutcome.noModel)).2.2
    5 (LoadOutcome.failure ("boom")) ⟨7, ⟨none, true, none⟩⟩ (by norm_num)

theorem fetchFailMsg_head (status : ℕ) (statusText : String) :
    (fetchFailMsg status statusText).data.head? = some ('F') := by
  rw [fetchFailMsg, String.data_append]
  rfl

/-- C4 counterexample: the loader reports every caught error by its
message alone, so a decoder failure whose message happens to equal the
fixed validation-failure reason produces a visible error identical to
the empty-geometry report; the reported reasons are therefore not
distinguishable from decode-failure reasons in general. -/
theorem claim_C4_cx :
    ¬ (∀ (msg : String) (v : VisState ℕ),
        (applyOutcome (LoadOutcome.failure msg) v).error
          ≠ (applyOutcome (LoadOutcome.invalidModel) v).error) := by
  intro h
  exact h invalidModelMsg ⟨none, true, none⟩ rfl

/-- C4 amended: a loaded model whose scene has no meaningful content is
reported with the fixed reason of the validation branch (the stored
model is left untouched and loading ends); that reason differs from
every fetch-failure reason and from the no-model reason, but decode
failures pass the decoder message through, so they are distinguishable
from the empty-geometry report exactly when the decoder message differs
from the fixed reason. -/
theorem claim_C4_amended :
    (∀ (m : JsModel) (children : List SceneChild) (v : VisState JsModel),
        m.scene = some children → hasMeaningfulContent children = false →
        applyOutcome (modelOutcome isValidModel (some m)) v
          = { v with error := some invalidModelMsg, isLoading := false })
    ∧ (∀ (status : ℕ) (statusText : String),
        fetchFailMsg status statusText ≠ invalidModelMsg
        ∧ fetchFailMsg status statusText ≠ noModelMsg)
    ∧ invalidModelMsg ≠ noModelMsg
    ∧ (∀ (α : Type) (msg : String) (v : VisState α), msg ≠ invalidModelMsg →
        (applyOutcome (LoadOutcome.failure msg) v).error
          ≠ (applyOutcome (LoadOutcome.invalidModel) v).error) := by
  refine ⟨?_, ?_, by decide, ?_⟩
  · intro m children v hscene hmean
    have hvalid : isValidModel m = false := by
      rw [isValidModel, hscene]
      cases children with
      | nil => simp
      | cons hd tl =>
        simp only [Option.isNone_some, Bool.false_and, if_false, Bool.false_eq_true]
        rw [if_neg (by simp)]
        exact hmean
    simp [modelOutcome, hvalid, applyOutcome]
  · intro status statusText
    constructor
    · intro h
      have hh : (fetchFailMsg status statusText).data.head? = invalidModelMsg.data.head? := by
        rw [h]
      rw [fetchFailMsg_head] at hh
      simp [invalidModelMsg] at hh
    · intro h
      have hh : (fetchFailMsg status statusText).data.head? = noModelMsg.data.head? := by
        rw [h]
      rw [fetchFailMsg_head] at hh
      simp [noModelMsg] at hh
  · intro α msg v hmsg
    simp [applyOutcome]
    exact hmsg

/-- C4 amended instance: the hypothesis-bearing conjuncts applied at a
model whose only scene child is a mesh without geometry and at a decoder
message different from the fixed validation reason. -/
theorem claim_C4_amended_instance :
    applyOutcome
        (modelOutcome isValidModel
          (some (⟨some [⟨"Mesh", false, 0⟩], "Scene", false, false, false, false, none⟩ : JsModel)))
        ⟨none, true, none⟩
      = { model := (none : Option JsModel), isLoading := false, error := some invalidModelMsg }
    ∧ (applyOutcome (LoadOutcome.failure ("decoder exploded")) (⟨none, true, none⟩ : VisState ℕ)).error
      ≠ (applyOutcome (LoadOutcome.invalidModel) (⟨none, true, none⟩ : VisState ℕ)).error :=
  ⟨claim_C4_amended.1 ⟨some [⟨"Mesh", false, 0⟩], "Scene", false, false, false, false, none⟩
      [⟨"Mesh", false, 0⟩] ⟨none, true, none⟩ rfl (by decide),
    claim_C4_amended.2.2.2 ℕ ("decoder exploded") ⟨none, true, none⟩ (by decide)⟩

/-! ## modelLoader.js: binary-format validation of GLB buffers -/

/-- DataView.getUint32 big-endian on a byte buffer: none models the
RangeError thrown on an out-of-bounds read. -/
def getU32BE (bytes : List ℕ) (off : ℕ) : Option ℕ :=
  match bytes.get? off, bytes.get? (off + 1), bytes.get? (off + 2), bytes.get? (off + 3) with
  | some b0, some b1, some b2, some b3 =>
    some (b0 * 2 ^ 24 + b1 * 2 ^ 16 + b2 * 2 ^ 8 + b3)
  | _, _, _, _ => none

/-- DataView.getUint32 little-endian on a byte buffer. -/
def getU32LE (bytes : List ℕ) (off : ℕ) : Option ℕ :=
  match bytes.get? off, bytes.get? (off + 1), bytes.get? (off + 2), bytes.get? (off + 3) with
  | some b0, some b1, some b2, some b3 =>
    some (b0 + b1 * 2 ^ 8 + b2 * 2 ^ 16 + b3 * 2 ^ 24)
  | _, _, _, _ => none

/-- The result object of validateGlbFile. -/
structure GlbValidation where
  valid : Bool
  message : String
deriving DecidableEq, Repr

/-- The catch-block message of validateGlbFile for a RangeError of the
DataView reads. -/
def rangeErrorMsg : String :=
  "Error validating file: Offset is outside the bounds of the DataView"

/-- The GLB branch of validateGlbFile from modelLoader.js: magic bytes
big-endian at offset 0, version little-endian at offset 4, total length
little-endian at offset 8 compared against the buffer length, and the
JSON chunk type little-endian at offset 16, checked in this order; an
out-of-bounds read is caught and reported as invalid. -/
def validateGlbBytes (bytes : List ℕ) : GlbValidation :=
  match getU32BE bytes 0 with
  | none => ⟨false, rangeErrorMsg⟩
  | some magic =>
    if magic ≠ 0x676C5446 then
      ⟨false, "Invalid GLB file: Missing \"glTF\" magic bytes"⟩
    else match getU32LE bytes 4 with
    | none => ⟨false, rangeErrorMsg⟩
    | some version =>
      if version ≠ 2 then
        ⟨false, "Unsupported GLB version: " ++ (toString version ++ ". Only version 2 is supported.")⟩
      else match getU32LE bytes 8 with
      | none => ⟨false, rangeErrorMsg⟩
      | some fileLength =>
        if fileLength > bytes.length then
          ⟨false, "Invalid GLB file: Expected length " ++ (toString fileLength
            ++ (" exceeds actual size " ++ toString bytes.length))⟩
        else match getU32LE bytes 16 with
        | none => ⟨false, rangeErrorMsg⟩
        | some chunkType =>
          if chunkType ≠ 0x4E4F534A then
            ⟨false, "Invalid GLB file: Missing JSON chunk"⟩
          else
            ⟨true, "GLB file appears to be valid"⟩

/-- A twenty-byte buffer whose magic, version and declared length are
all correct but whose chunk-type word at offset 16 is zero. -/
def glbChunkCxBytes : List ℕ :=
  [0x67, 0x6C, 0x54, 0x46, 2, 0, 0, 0, 20, 0, 0, 0, 0, 0, 0, 0, 0, 0, 0, 0]

/-- C3 counterexample: a buffer with the correct magic bytes, version 2
and a declared length within the buffer length is still rejected,
because validation also requires the JSON chunk type at offset 16; the
three stated conditions are therefore not sufficient for validation to
pass. -/
theorem claim_C3_cx :
    getU32BE glbChunkCxBytes 0 = some 0x676C5446
    ∧ getU32LE glbChunkCxBytes 4 = some 2
    ∧ getU32LE glbChunkCxBytes 8 = some 20
    ∧ 20 ≤ glbChunkCxBytes.length
    ∧ (validateGlbBytes glbChunkCxBytes).valid = false := by
  refine ⟨by decide, by decide, by decide, by decide, by decide⟩

/-- C3 amended: GLB validation passes exactly when the magic word at
offset 0 reads big-endian as the glTF signature, the version word at
offset 4 reads little-endian as 2, the declared length at offset 8 does
not exceed the buffer length, and additionally the chunk-type word at
offset 16 reads as the JSON signature; in particular making any one of
those reads wrong (the three of the claim included) makes validation
fail, and no read may run out of bounds. -/
theorem claim_C3_amended :
    ∀ bytes : List ℕ,
      (validateGlbBytes bytes).valid = true ↔
        (getU32BE bytes 0 = some 0x676C5446
         ∧ getU32LE bytes 4 = some 2
         ∧ (∃ n : ℕ, getU32LE bytes 8 = some n ∧ n ≤ bytes.length)
         ∧ getU32LE bytes 16 = some 0x4E4F534A) := by
  intro bytes
  rw [validateGlbBytes]
  cases h0 : getU32BE bytes 0 with
  | none => simp [h0]
  | some magic =>
    dsimp only
    by_cases hm : magic = 0x676C5446
    · subst hm
      rw [if_neg (by simp)]
      cases h1 : getU32LE bytes 4 with
      | none => simp [h1]
      | some version =>
        dsimp only
        by_cases hv : version = 2
        · subst hv
          rw [if_neg (by simp)]
          cases h2 : getU32LE bytes 8 with
          | none => simp [h2]
          | some fileLength =>
            dsimp only
            by_cases hl : fileLength > bytes.length
            · rw [if_pos hl]
              simp [h2]
              intro x hx
              omega
            · rw [if_neg hl]
              cases h3 : getU32LE bytes 16 with
              | none => simp [h3, h2]
              | some chunkType =>
                dsimp only
                by_cases hc : chunkType = 0x4E4F534A
                · subst hc
                  rw [if_neg (by simp)]
                  simp [h2, h3]
                  omega
                · rw [if_pos (by simpa using hc)]
                  simp [h2, h3]
                  intro hle
                  exact hc
        · rw [if_pos (by simpa using hv)]
          simp [h1]
          intro hver
          exact absurd hver hv
    · rw [if_pos (by simpa using hm)]
      simp [h0]
      intro hmagic
      exact absurd hmagic hm
